import Mathlib

/-!
Verification of the bootstrap of `zlabjp/k8s-athenz-syncer` (`main.go`)
against its design specification.

The Go source under verification is `main.go`: the flag handling, client
construction, credential-reloader startup, system-namespace processing,
duration parsing, controller construction and signal-driven shutdown.
External collaborators (Kubernetes client construction, config building,
`time.ParseDuration`, the on-disk key/cert parse) are abstracted as
parameters (`Deps`) so that theorems quantify over their outcomes; the
credential store (`pkg/reloader`, not part of the sources here) is modelled
from the specification's description of it.

Strings that stand for namespace lists are represented as `List Char` so
that the comma-splitting loop of `main.go` can be reasoned about directly.
-/

namespace AthenzSyncer

/-- Abstract Kubernetes REST config (`*rest.Config`). -/
abbrev RestConfig := Nat

/-- Abstract Kubernetes clientset (`kubernetes.Interface`). -/
abbrev K8sClient := Nat

/-- Abstract Athenz versioned clientset (`*athenzClientset.Clientset`). -/
abbrev AthenzClientset := Nat

/-- Abstract `time.Duration` value produced by `time.ParseDuration`. -/
abbrev Duration := Nat

/-- `CredentialBundle`: the (private key, certificate) pair plus load
timestamp held by the credential store (`tls.Certificate` contents). -/
structure CredentialBundle where
  privateKey : String
  certificate : String
  loadTime : Nat
  deriving DecidableEq, Repr

/-- Process environment relevant to `homeDir`: the `HOME` and
`USERPROFILE` variables (an unset variable is the empty string, as in
`os.Getenv`). -/
structure Env where
  home : String
  userprofile : String

/-- `homeDir` from `main.go`:
returns `$HOME` when non-empty, else `$USERPROFILE` (windows). -/
def homeDir (env : Env) : String :=
  if env.home ≠ "" then env.home else env.userprofile

/-- The default value registered for the `kubeconfig` flag in `getClients`:
`filepath.Join(home, ".kube", "config")` when `homeDir()` is non-empty,
else the empty string. `filepath.Join` on a non-empty cleaned base path is
modelled as appending `/.kube/config`. -/
def kubeconfigFlagDefault (env : Env) : String :=
  if homeDir env ≠ "" then homeDir env ++ "/.kube/config" else ""

/-- The kubeconfig path actually used by `getClients` after `flag.Parse`
and the in-cluster override: the user-supplied flag value (or the
registered default when the flag was not supplied), replaced by the empty
string when `inClusterConfig` is set. -/
def effectiveKubeconfig (env : Env) (userKubeconfig : Option String)
    (inClusterConfig : Bool) : String :=
  let kubeconfig := userKubeconfig.getD (kubeconfigFlagDefault env)
  if inClusterConfig then "" else kubeconfig

/-- The reason attached to each fatal startup abort (`log.Panicln` /
`log.Panicf` call sites in `main.go`), carrying the logged cause. -/
inductive AbortReason where
  /-- `log.Panicln(err.Error())` in `getClients` after
  `clientcmd.BuildConfigFromFlags` fails. -/
  | clusterConfig (msg : String)
  /-- `log.Panicf("Error occurred when creating clients. ...")` in `main`. -/
  | clients (msg : String)
  /-- `log.Panicf("Error occurred when creating new reloader. ...")`. -/
  | reloader (msg : String)
  /-- `log.Panicf("Error occurred when creating zms client. ...")`. -/
  | zmsClient (msg : String)
  /-- `log.Panicf("Update Cron interval input is invalid. ...")`. -/
  | updateCron (msg : String)
  /-- `log.Panicf("Full Resync Cron interval input is invalid. ...")`. -/
  | resyncCron (msg : String)
  /-- `log.Panicf("Queue delay input is invalid. ...")`. -/
  | queueDelay (msg : String)
  deriving DecidableEq, Repr

/-- Result of a Go call that may panic (via the logger) or return an
error alongside its value. -/
inductive GoResult (α : Type) where
  | fatal (r : AbortReason)
  | err (msg : String)
  | ok (a : α)

/-- External collaborators of `main.go`, abstracted: each may fail, and
theorems quantify over their outcomes. -/
structure Deps where
  /-- `clientcmd.BuildConfigFromFlags(masterURL, kubeconfigPath)`. -/
  buildConfigFromFlags : String → String → Except String RestConfig
  /-- `kubernetes.NewForConfig(config)`. -/
  newForConfig : RestConfig → Except String K8sClient
  /-- `athenzClientset.NewForConfig(config)`. -/
  athenzNewForConfig : RestConfig → Except String AthenzClientset
  /-- The read-and-parse of the initial key/cert files performed inside
  `r.NewCertReloader` (keyFile, certFile arguments). -/
  parseKeyCert : String → String → Except String CredentialBundle
  /-- `time.ParseDuration`. -/
  parseDuration : String → Except String Duration

/-- `getClients` from `main.go`: compute the kubeconfig path, build the
REST config (panicking on failure), then construct the Kubernetes client
and the Athenz versioned client, returning an error if either fails. -/
def getClients (deps : Deps) (env : Env) (userKubeconfig : Option String)
    (inClusterConfig : Bool) : GoResult (K8sClient × AthenzClientset) :=
  let kubeconfig := effectiveKubeconfig env userKubeconfig inClusterConfig
  match deps.buildConfigFromFlags "" kubeconfig with
  | .error e => .fatal (.clusterConfig e)
  | .ok config =>
    match deps.newForConfig config with
    | .error e => .err ("Failed to create k8s client from config. Error: " ++ e)
    | .ok client =>
      match deps.athenzNewForConfig config with
      | .error e => .err ("Failed to create versiond client from config. Error: " ++ e)
      | .ok versiondClient => .ok (client, versiondClient)

/-! ### Credential store (`pkg/reloader`) -/

/-- Modelled from the spec: the Credential Store (`pkg/reloader`,
`r.CertReloader`), whose sources are not part of this repository snapshot.
Its state is the currently active `CredentialBundle` (exactly one is
current; absent only before successful startup) together with the stop
channel handed to its background reload loop. Channels are identified by
`Nat` tokens. -/
structure CertReloader where
  current : Option CredentialBundle
  stopCh : Nat

/-- Modelled from the spec: `r.NewCertReloader(ReloadConfig{...}, stopCh)`.
It parses the initial key/cert files (here: is given the parse outcome)
and fails when they cannot be parsed — "Startup failure to parse the
initial files is fatal (no prior bundle exists to fall back on)". On
success the parsed bundle is the current one. -/
def NewCertReloader (initialParse : Except String CredentialBundle)
    (stopCh : Nat) : Except String CertReloader :=
  match initialParse with
  | .error e => .error e
  | .ok bundle => .ok { current := some bundle, stopCh := stopCh }

/-- Modelled from the spec: one reload attempt of the credential store's
background loop. `attempt` is the outcome of re-reading and re-parsing the
key/cert files: on success the active bundle is swapped atomically; "If
parsing fails, log the error and keep serving the previous bundle". -/
def reloadOnce (r : CertReloader) (attempt : Except String CredentialBundle) :
    CertReloader :=
  match attempt with
  | .error _ => r
  | .ok bundle => { r with current := some bundle }

/-- Modelled from the spec: the state of the credential store after a
sequence of reload attempts. -/
def runReloads (r : CertReloader) (attempts : List (Except String CredentialBundle)) :
    CertReloader :=
  attempts.foldl reloadOnce r

/-- Modelled from the spec: `reloader.GetLatestCertificate()`, "a pure
read of the current bundle". -/
def GetLatestCertificate (r : CertReloader) : Option CredentialBundle :=
  r.current

/-! ### ZMS client (`createZMSClient`) -/

/-- The heap of credential-store states: `*r.CertReloader` is a pointer,
modelled as a `Nat` address into a heap, so that a callback holding the
pointer reads the state current at invocation time. -/
abbrev ReloaderHeap := Nat → CertReloader

/-- `*tls.CertificateRequestInfo` (opaque to `createZMSClient`, whose
callback ignores it). -/
abbrev CertificateRequestInfo := Nat

/-- `tls.Config` as populated by `createZMSClient`: only the
`GetClientCertificate` callback, a function invoked by the TLS layer at
handshake time. It receives the request info and the heap at handshake
time and returns the certificate with a `nil` (none) error. -/
structure TLSConfig where
  getClientCertificate :
    CertificateRequestInfo → ReloaderHeap → Option CredentialBundle × Option String

/-- `http.Transport` as populated by `createZMSClient`. -/
structure HTTPTransport where
  tlsClientConfig : TLSConfig
  disableKeepAlives : Bool

/-- `zms.ZMSClient` as returned by `zms.NewClient(zmsURL, transport)`. -/
structure ZMSClient where
  url : String
  transport : HTTPTransport

/-- `createZMSClient` from `main.go`: builds a `tls.Config` whose
`GetClientCertificate` callback returns
`reloader.GetLatestCertificate(), nil`, wraps it in a transport with the
given keep-alive setting, and returns the client with a `nil` error. -/
def createZMSClient (reloader : Nat) (zmsURL : String)
    (disableKeepAlives : Bool) : Except String ZMSClient :=
  let config : TLSConfig :=
    { getClientCertificate := fun _ heap => (GetLatestCertificate (heap reloader), none) }
  let transport : HTTPTransport :=
    { tlsClientConfig := config, disableKeepAlives := disableKeepAlives }
  .ok { url := zmsURL, transport := transport }

/-! ### System-namespace list processing -/

/-- Go's `strings.Split(s, ",")` on a string represented as a character
list: splits around every comma; an empty input yields one empty
component, and adjacent / leading / trailing commas yield empty
components. -/
def splitComma : List Char → List (List Char)
  | [] => [[]]
  | c :: cs =>
    match splitComma cs with
    | [] => [[]]
    | t :: ts => if c = ',' then [] :: t :: ts else (c :: t) :: ts

/-- The system-namespaces processing loop of `main.go`:
`systemNSList := strings.Split(*systemNamespaces, ",")` followed by the
loop appending every non-empty item to `processList`. -/
def processNamespaces (s : List Char) : List (List Char) :=
  (splitComma s).foldl (fun acc item => if item ≠ [] then acc ++ [item] else acc) []

/-! ### Signals and process lifecycle -/

/-- OS signals; `main` registers `syscall.SIGTERM` and `syscall.SIGINT`
with `signal.Notify` on its `sigTerm` channel. -/
inductive Signal where
  | SIGTERM
  | SIGINT
  | other (n : Nat)
  deriving DecidableEq, Repr

/-- Whether a signal is delivered to `main`'s `sigTerm` channel: exactly
the two signals passed to `signal.Notify`. -/
def terminationSignal : Signal → Bool
  | .SIGTERM => true
  | .SIGINT => true
  | .other _ => false

/-- The blocking receive `<-sigTerm`: the first delivered termination
signal in the incoming signal sequence, or `none` when no such signal
arrives (in which case `main` stays blocked). -/
def awaitSignal (signals : List Signal) : Option Signal :=
  signals.find? terminationSignal

/-- What `main` does after setup, as a function of the incoming signal
sequence: while no SIGTERM/SIGINT arrives it stays blocked (`none`);
on the first one it returns, running the deferred `close(stopCh)`, and
exits — `some (receivedSignal, closedChannel)`. -/
def mainLifecycle (stopCh : Nat) (signals : List Signal) : Option (Signal × Nat) :=
  match awaitSignal signals with
  | none => none
  | some s => some (s, stopCh)

/-! ### `main` -/

/-- The command-line flag values of `main.go` (each field is the parsed
flag value: the user-supplied string, or the registered default when the
flag is absent). `kubeconfig` is `none` when the flag was not supplied,
so that `getClients`'s registered default applies. -/
structure Flags where
  key : String := "/var/run/athenz/service.key.pem"
  cert : String := "/var/run/athenz/service.cert.pem"
  zmsURL : String := ""
  updateCron : String := "1m0s"
  resyncCron : String := "1h0m0s"
  queueDelayInterval : String := "250ms"
  adminDomain : String := ""
  systemNamespaces : List Char := []
  disableKeepAlives : Bool := true
  inClusterConfig : Bool := true
  kubeconfig : Option String := none

/-- Everything `main` has wired together once startup succeeds: the
arguments handed to `controller.NewController`, the constructed reloader
and the stop channel given to `controller.Run`. -/
structure Setup where
  k8sClient : K8sClient
  versiondClient : AthenzClientset
  zmsClient : ZMSClient
  certReloader : CertReloader
  updatePeriod : Duration
  resyncPeriod : Duration
  delayInterval : Duration
  adminDomain : String
  systemNamespaceList : List (List Char)
  controllerStopCh : Nat

/-- Outcome of running `main` up to the blocking signal wait: either a
fatal startup abort with its logged reason, or a running process with its
completed setup. -/
inductive MainOutcome where
  | aborted (r : AbortReason)
  | running (setup : Setup)

/-- The `match` on `createZMSClient`'s result in `main` (lines 131–134):
an error panics with the zms-client reason, success continues with the
client. -/
def zmsClientStep (res : Except String ZMSClient) (k : ZMSClient → MainOutcome) :
    MainOutcome :=
  match res with
  | .error e => .aborted (.zmsClient e)
  | .ok client => k client

/-- `main` from `main.go`, up to the blocking `<-sigTerm`: construct the
clients (panicking on failure), the cert reloader (panicking on failure),
the ZMS client (panicking on failure), process the system-namespaces flag,
parse the three duration flags (panicking on the first failure), and
construct the controller with the parsed values. `stopCh` is the channel
allocated by `make(chan struct{})`; `reloaderAddr` the address of the
allocated `CertReloader`. -/
def runMain (deps : Deps) (env : Env) (fl : Flags) (stopCh : Nat)
    (reloaderAddr : Nat) : MainOutcome :=
  match getClients deps env fl.kubeconfig fl.inClusterConfig with
  | .fatal r => .aborted r
  | .err e => .aborted (.clients e)
  | .ok (k8sClient, versiondClient) =>
    match NewCertReloader (deps.parseKeyCert fl.key fl.cert) stopCh with
    | .error e => .aborted (.reloader e)
    | .ok certReloader =>
      zmsClientStep (createZMSClient reloaderAddr fl.zmsURL fl.disableKeepAlives)
        (fun zmsClient =>
          let processList := processNamespaces fl.systemNamespaces
          match deps.parseDuration fl.updateCron with
          | .error e => .aborted (.updateCron e)
          | .ok updatePeriod =>
            match deps.parseDuration fl.resyncCron with
            | .error e => .aborted (.resyncCron e)
            | .ok resyncPeriod =>
              match deps.parseDuration fl.queueDelayInterval with
              | .error e => .aborted (.queueDelay e)
              | .ok delayInterval =>
                .running
                  { k8sClient := k8sClient
                    versiondClient := versiondClient
                    zmsClient := zmsClient
                    certReloader := certReloader
                    updatePeriod := updatePeriod
                    resyncPeriod := resyncPeriod
                    delayInterval := delayInterval
                    adminDomain := fl.adminDomain
                    systemNamespaceList := processList
                    controllerStopCh := stopCh })

/-! ### Concrete instantiations used by witnesses -/

/-- A concrete parsed credential bundle. -/
def bundleOK : CredentialBundle :=
  { privateKey := "key-pem", certificate := "cert-pem", loadTime := 0 }

/-- Collaborators that all succeed. -/
def depsOK : Deps :=
  { buildConfigFromFlags := fun _ _ => .ok 0
    newForConfig := fun _ => .ok 1
    athenzNewForConfig := fun _ => .ok 2
    parseKeyCert := fun _ _ => .ok bundleOK
    parseDuration := fun _ => .ok 60 }

/-- An environment with neither `HOME` nor `USERPROFILE` set. -/
def envEmpty : Env := { home := "", userprofile := "" }

/-- The flag record with every flag left at its registered default. -/
def flagsDefault : Flags := {}

/-- The ZMS client built by `createZMSClient 0 "" true` (reloader at
address 0, default flag values). -/
def zmsClientDefaultFlags : ZMSClient :=
  { url := ""
    transport :=
      { tlsClientConfig :=
          { getClientCertificate := fun _ heap => (GetLatestCertificate (heap 0), none) }
        disableKeepAlives := true } }

/-- The setup produced by a fully successful startup with `depsOK`,
default flags, stop channel 5 and reloader address 0. -/
def setupOK : Setup :=
  { k8sClient := 1
    versiondClient := 2
    zmsClient := zmsClientDefaultFlags
    certReloader := { current := some bundleOK, stopCh := 5 }
    updatePeriod := 60
    resyncPeriod := 60
    delayInterval := 60
    adminDomain := ""
    systemNamespaceList := []
    controllerStopCh := 5 }

/-! ### Helper lemmas -/

theorem reloadOnce_isSome (r : CertReloader) (attempt : Except String CredentialBundle)
    (h : r.current.isSome = true) : (reloadOnce r attempt).current.isSome = true := by
  cases attempt with
  | error e => exact h
  | ok b => simp [reloadOnce]

theorem runReloads_isSome (attempts : List (Except String CredentialBundle)) :
    ∀ r : CertReloader, r.current.isSome = true →
      (runReloads r attempts).current.isSome = true := by
  induction attempts with
  | nil => intro r h; exact h
  | cons a rest ih =>
    intro r h
    have : runReloads r (a :: rest) = runReloads (reloadOnce r a) rest := rfl
    rw [this]
    exact ih _ (reloadOnce_isSome r a h)

theorem NewCertReloader_ok_inv (initialParse : Except String CredentialBundle)
    (stopCh : Nat) (r : CertReloader)
    (h : NewCertReloader initialParse stopCh = .ok r) :
    r.stopCh = stopCh ∧ r.current.isSome = true := by
  cases initialParse with
  | error e => simp [NewCertReloader] at h
  | ok b =>
    simp only [NewCertReloader] at h
    cases h
    exact ⟨rfl, rfl⟩

theorem processLoop_eq_filter (l : List (List Char)) :
    ∀ acc : List (List Char),
      l.foldl (fun acc item => if item ≠ [] then acc ++ [item] else acc) acc
        = acc ++ l.filter (fun t => !t.isEmpty) := by
  induction l with
  | nil => intro acc; simp
  | cons x xs ih =>
    intro acc
    cases x with
    | nil => simpa using ih acc
    | cons c cs =>
      simp only [List.foldl_cons, List.filter_cons]
      rw [ih]
      simp

theorem processNamespaces_eq_filter (s : List Char) :
    processNamespaces s = (splitComma s).filter (fun t => !t.isEmpty) := by
  have h := processLoop_eq_filter (splitComma s) []
  simpa [processNamespaces] using h

theorem runMain_running_inv (deps : Deps) (env : Env) (fl : Flags)
    (stopCh raddr : Nat) (setup : Setup)
    (h : runMain deps env fl stopCh raddr = .running setup) :
    setup.certReloader.stopCh = stopCh ∧
    setup.certReloader.current.isSome = true ∧
    setup.controllerStopCh = stopCh ∧
    setup.systemNamespaceList = processNamespaces fl.systemNamespaces := by
  cases hg : getClients deps env fl.kubeconfig fl.inClusterConfig with
  | fatal r => simp [runMain, hg] at h
  | err e => simp [runMain, hg] at h
  | ok kv =>
    obtain ⟨kc, vc⟩ := kv
    cases hr : NewCertReloader (deps.parseKeyCert fl.key fl.cert) stopCh with
    | error e => simp [runMain, hg, hr] at h
    | ok rel =>
      obtain ⟨hst, hcur⟩ := NewCertReloader_ok_inv _ _ _ hr
      cases hu : deps.parseDuration fl.updateCron with
      | error e => simp [runMain, hg, hr, hu, zmsClientStep, createZMSClient] at h
      | ok d1 =>
        cases hre : deps.parseDuration fl.resyncCron with
        | error e => simp [runMain, hg, hr, hu, hre, zmsClientStep, createZMSClient] at h
        | ok d2 =>
          cases hq : deps.parseDuration fl.queueDelayInterval with
          | error e =>
            simp [runMain, hg, hr, hu, hre, hq, zmsClientStep, createZMSClient] at h
          | ok d3 =>
            simp only [runMain, hg, hr, hu, hre, hq, zmsClientStep, createZMSClient,
              MainOutcome.running.injEq] at h
            subst h
            exact ⟨hst, hcur, rfl, rfl⟩

theorem runMain_all_ok (deps : Deps) (env : Env) (fl : Flags) (stopCh raddr : Nat)
    (kc : K8sClient) (vc : AthenzClientset) (rel : CertReloader)
    (d1 d2 d3 : Duration)
    (hg : getClients deps env fl.kubeconfig fl.inClusterConfig = .ok (kc, vc))
    (hr : NewCertReloader (deps.parseKeyCert fl.key fl.cert) stopCh = .ok rel)
    (h1 : deps.parseDuration fl.updateCron = .ok d1)
    (h2 : deps.parseDuration fl.resyncCron = .ok d2)
    (h3 : deps.parseDuration fl.queueDelayInterval = .ok d3) :
    runMain deps env fl stopCh raddr = .running
      { k8sClient := kc
        versiondClient := vc
        zmsClient :=
          { url := fl.zmsURL
            transport :=
              { tlsClientConfig :=
                  { getClientCertificate :=
                      fun _ heap => (GetLatestCertificate (heap raddr), none) }
                disableKeepAlives := fl.disableKeepAlives } }
        certReloader := rel
        updatePeriod := d1
        resyncPeriod := d2
        delayInterval := d3
        adminDomain := fl.adminDomain
        systemNamespaceList := processNamespaces fl.systemNamespaces
        controllerStopCh := stopCh } := by
  simp [runMain, hg, hr, h1, h2, h3, zmsClientStep, createZMSClient]

theorem awaitSignal_eq_none (signals : List Signal)
    (h : ∀ s ∈ signals, terminationSignal s = false) : awaitSignal signals = none := by
  rw [awaitSignal, List.find?_eq_none]
  intro x hx
  simp [h x hx]

theorem awaitSignal_first (pre : List Signal) (s : Signal) (post : List Signal)
    (hs : terminationSignal s = true)
    (hpre : ∀ x ∈ pre, terminationSignal x = false) :
    awaitSignal (pre ++ s :: post) = some s := by
  induction pre with
  | nil =>
    rw [List.nil_append, awaitSignal, List.find?_cons_of_pos _ hs]
  | cons a rest ih =>
    have ha : terminationSignal a = false := hpre a (by simp)
    have hrest : ∀ x ∈ rest, terminationSignal x = false :=
      fun x hx => hpre x (by simp [hx])
    rw [List.cons_append, awaitSignal, List.find?_cons_of_neg _ (by simp [ha])]
    exact ih hrest

/-! ### Claims -/

/-- C1: Once startup succeeds (`NewCertReloader` returns without error),
`GetLatestCertificate()` never returns an empty/unparsed credential bundle,
whatever sequence of reload attempts (including failing ones) has run
since; a failed reload leaves the previous bundle authoritative. -/
theorem claim_C1_bundle_never_empty_after_startup
    (initialParse : Except String CredentialBundle) (stopCh : Nat)
    (r0 : CertReloader) (hstart : NewCertReloader initialParse stopCh = .ok r0) :
    (∀ attempts, (GetLatestCertificate (runReloads r0 attempts)).isSome = true) ∧
    (∀ (r : CertReloader) (e : String), reloadOnce r (.error e) = r) := by
  refine ⟨fun attempts => ?_, fun r e => rfl⟩
  exact runReloads_isSome attempts r0 (NewCertReloader_ok_inv _ _ _ hstart).2

/-- Witness for C1 at a concrete startup and a reload history containing
only failing attempts. -/
theorem claim_C1_bundle_never_empty_after_startup_witness :
    NewCertReloader (.ok bundleOK) 7 = .ok { current := some bundleOK, stopCh := 7 } ∧
    (GetLatestCertificate (runReloads { current := some bundleOK, stopCh := 7 }
      [.error "bad pem", .error "still bad"])).isSome = true := by
  constructor
  · rfl
  · exact (claim_C1_bundle_never_empty_after_startup (.ok bundleOK) 7 _ rfl).1
      [.error "bad pem", .error "still bad"]

/-- C2: every client certificate handed to a TLS handshake by the ZMS
client built in `createZMSClient` is obtained by invoking
`GetLatestCertificate` on the reloader's state at handshake time (the
heap argument), not a certificate captured at construction time. -/
theorem claim_C2_handshake_reads_current_credential
    (reloader : Nat) (zmsURL : String) (dka : Bool) (client : ZMSClient)
    (h : createZMSClient reloader zmsURL dka = .ok client) :
    ∀ (req : CertificateRequestInfo) (heap : ReloaderHeap),
      client.transport.tlsClientConfig.getClientCertificate req heap
        = (GetLatestCertificate (heap reloader), none) := by
  simp only [createZMSClient, Except.ok.injEq] at h
  subst h
  intro req heap
  rfl

/-- Witness for C2 at a concrete client and a concrete handshake-time
heap. -/
theorem claim_C2_handshake_reads_current_credential_witness :
    createZMSClient 0 "" true = .ok zmsClientDefaultFlags ∧
    zmsClientDefaultFlags.transport.tlsClientConfig.getClientCertificate 0
        (fun _ => { current := some bundleOK, stopCh := 5 })
      = (some bundleOK, none) := by
  constructor
  · rfl
  · have h := claim_C2_handshake_reads_current_credential 0 "" true
      zmsClientDefaultFlags rfl 0 (fun _ => { current := some bundleOK, stopCh := 5 })
    simpa [GetLatestCertificate] using h

/-- C3: when parsing the initial key/certificate files fails
(`NewCertReloader` returns an error), `main` aborts with the reloader
panic carrying the cause, and no reloader state (no fallback bundle)
exists — `NewCertReloader` itself returns only the error. -/
theorem claim_C3_initial_parse_failure_is_fatal
    (deps : Deps) (env : Env) (fl : Flags) (stopCh raddr : Nat)
    (kv : K8sClient × AthenzClientset) (e : String)
    (hclients : getClients deps env fl.kubeconfig fl.inClusterConfig = .ok kv)
    (hparse : deps.parseKeyCert fl.key fl.cert = .error e) :
    runMain deps env fl stopCh raddr = .aborted (.reloader e) ∧
    NewCertReloader (deps.parseKeyCert fl.key fl.cert) stopCh = .error e := by
  obtain ⟨kc, vc⟩ := kv
  constructor
  · simp [runMain, hclients, hparse, NewCertReloader]
  · simp [hparse, NewCertReloader]

/-- Collaborators where only the initial key/cert parse fails. -/
def depsBadKeyCert : Deps :=
  { depsOK with parseKeyCert := fun _ _ => .error "bad pem" }

/-- Witness for C3 at concrete collaborators whose initial key/cert parse
fails. -/
theorem claim_C3_initial_parse_failure_is_fatal_witness :
    getClients depsBadKeyCert envEmpty flagsDefault.kubeconfig
        flagsDefault.inClusterConfig = .ok (1, 2) ∧
    depsBadKeyCert.parseKeyCert flagsDefault.key flagsDefault.cert = .error "bad pem" ∧
    runMain depsBadKeyCert envEmpty flagsDefault 5 0 = .aborted (.reloader "bad pem") := by
  refine ⟨rfl, rfl, ?_⟩
  exact (claim_C3_initial_parse_failure_is_fatal depsBadKeyCert envEmpty flagsDefault
    5 0 (1, 2) "bad pem" rfl rfl).1

/-- C4: when any of the update-cron, resync-cron or queue-delay-interval
flags fails to parse as a duration, `main` aborts with the corresponding
panic before the controller is constructed; when all three parse, the
parsed durations reach the controller constructor unchanged. -/
theorem claim_C4_duration_flags_parsed_or_fatal
    (deps : Deps) (env : Env) (fl : Flags) (stopCh raddr : Nat)
    (kv : K8sClient × AthenzClientset) (rel : CertReloader)
    (hclients : getClients deps env fl.kubeconfig fl.inClusterConfig = .ok kv)
    (hrel : NewCertReloader (deps.parseKeyCert fl.key fl.cert) stopCh = .ok rel) :
    (∀ e, deps.parseDuration fl.updateCron = .error e →
       runMain deps env fl stopCh raddr = .aborted (.updateCron e)) ∧
    (∀ d1 e, deps.parseDuration fl.updateCron = .ok d1 →
       deps.parseDuration fl.resyncCron = .error e →
       runMain deps env fl stopCh raddr = .aborted (.resyncCron e)) ∧
    (∀ d1 d2 e, deps.parseDuration fl.updateCron = .ok d1 →
       deps.parseDuration fl.resyncCron = .ok d2 →
       deps.parseDuration fl.queueDelayInterval = .error e →
       runMain deps env fl stopCh raddr = .aborted (.queueDelay e)) ∧
    (∀ d1 d2 d3, deps.parseDuration fl.updateCron = .ok d1 →
       deps.parseDuration fl.resyncCron = .ok d2 →
       deps.parseDuration fl.queueDelayInterval = .ok d3 →
       ∃ setup, runMain deps env fl stopCh raddr = .running setup ∧
         setup.updatePeriod = d1 ∧ setup.resyncPeriod = d2 ∧
         setup.delayInterval = d3) := by
  obtain ⟨kc, vc⟩ := kv
  refine ⟨?_, ?_, ?_, ?_⟩
  · intro e h1
    simp [runMain, hclients, hrel, h1, zmsClientStep, createZMSClient]
  · intro d1 e h1 h2
    simp [runMain, hclients, hrel, h1, h2, zmsClientStep, createZMSClient]
  · intro d1 d2 e h1 h2 h3
    simp [runMain, hclients, hrel, h1, h2, h3, zmsClientStep, createZMSClient]
  · intro d1 d2 d3 h1 h2 h3
    exact ⟨_, runMain_all_ok deps env fl stopCh raddr kc vc rel d1 d2 d3
      hclients hrel h1 h2 h3, rfl, rfl, rfl⟩

/-- Collaborators whose duration parser rejects exactly the string
`"notaduration"`. -/
def depsDuration : Deps :=
  { depsOK with
    parseDuration := fun s =>
      if s = "notaduration" then .error "time: invalid duration" else .ok 60 }

/-- Flags with an unparsable update-cron value. -/
def flagsBadUpdate : Flags := { updateCron := "notaduration" }

/-- Witness for C4: a concrete unparsable update-cron flag aborts with the
update-cron panic. -/
theorem claim_C4_duration_flags_parsed_or_fatal_witness :
    getClients depsDuration envEmpty flagsBadUpdate.kubeconfig
        flagsBadUpdate.inClusterConfig = .ok (1, 2) ∧
    NewCertReloader (depsDuration.parseKeyCert flagsBadUpdate.key flagsBadUpdate.cert)
        5 = .ok { current := some bundleOK, stopCh := 5 } ∧
    depsDuration.parseDuration flagsBadUpdate.updateCron
        = .error "time: invalid duration" ∧
    runMain depsDuration envEmpty flagsBadUpdate 5 0
        = .aborted (.updateCron "time: invalid duration") := by
  refine ⟨rfl, rfl, by simp [depsDuration, flagsBadUpdate], ?_⟩
  exact (claim_C4_duration_flags_parsed_or_fatal depsDuration envEmpty flagsBadUpdate
    5 0 (1, 2) { current := some bundleOK, stopCh := 5 } rfl rfl).1
    "time: invalid duration" (by simp [depsDuration, flagsBadUpdate])

/-- C5: a cluster-config build failure panics inside `getClients`; a
Kubernetes or Athenz client-construction failure makes `getClients`
return an error on which `main` panics with the clients reason; a
ZMS-client construction error makes `main`'s zms step panic with the
zms-client reason. -/
theorem claim_C5_client_construction_failures_fatal :
    (∀ (deps : Deps) (env : Env) (u : Option String) (ic : Bool) (e : String),
       deps.buildConfigFromFlags "" (effectiveKubeconfig env u ic) = .error e →
       getClients deps env u ic = .fatal (.clusterConfig e)) ∧
    (∀ (deps : Deps) (env : Env) (u : Option String) (ic : Bool)
       (cfg : RestConfig) (e : String),
       deps.buildConfigFromFlags "" (effectiveKubeconfig env u ic) = .ok cfg →
       deps.newForConfig cfg = .error e →
       getClients deps env u ic
         = .err ("Failed to create k8s client from config. Error: " ++ e)) ∧
    (∀ (deps : Deps) (env : Env) (u : Option String) (ic : Bool)
       (cfg : RestConfig) (kc : K8sClient) (e : String),
       deps.buildConfigFromFlags "" (effectiveKubeconfig env u ic) = .ok cfg →
       deps.newForConfig cfg = .ok kc →
       deps.athenzNewForConfig cfg = .error e →
       getClients deps env u ic
         = .err ("Failed to create versiond client from config. Error: " ++ e)) ∧
    (∀ (deps : Deps) (env : Env) (fl : Flags) (stopCh raddr : Nat) (e : String),
       getClients deps env fl.kubeconfig fl.inClusterConfig = .err e →
       runMain deps env fl stopCh raddr = .aborted (.clients e)) ∧
    (∀ (e : String) (k : ZMSClient → MainOutcome),
       zmsClientStep (.error e) k = .aborted (.zmsClient e)) := by
  refine ⟨?_, ?_, ?_, ?_, fun e k => rfl⟩
  · intro deps env u ic e h
    simp [getClients, h]
  · intro deps env u ic cfg e hb hn
    simp [getClients, hb, hn]
  · intro deps env u ic cfg kc e hb hn ha
    simp [getClients, hb, hn, ha]
  · intro deps env fl stopCh raddr e h
    simp [runMain, h]

/-- Collaborators whose cluster-config build fails. -/
def depsBadBuild : Deps :=
  { depsOK with buildConfigFromFlags := fun _ _ => .error "no cluster config" }

/-- Collaborators whose Kubernetes client construction fails. -/
def depsBadK8s : Deps :=
  { depsOK with newForConfig := fun _ => .error "k8s down" }

/-- Collaborators whose Athenz clientset construction fails. -/
def depsBadAthenz : Deps :=
  { depsOK with athenzNewForConfig := fun _ => .error "athenz down" }

/-- Witness for C5 at concrete failing collaborators for each branch. -/
theorem claim_C5_client_construction_failures_fatal_witness :
    getClients depsBadBuild envEmpty none true
        = .fatal (.clusterConfig "no cluster config") ∧
    getClients depsBadK8s envEmpty none true
        = .err "Failed to create k8s client from config. Error: k8s down" ∧
    getClients depsBadAthenz envEmpty none true
        = .err "Failed to create versiond client from config. Error: athenz down" ∧
    runMain depsBadK8s envEmpty flagsDefault 5 0
        = .aborted (.clients "Failed to create k8s client from config. Error: k8s down") ∧
    zmsClientStep (.error "zms boom") (fun _ => .aborted (.clients "unused"))
        = .aborted (.zmsClient "zms boom") := by
  refine ⟨?_, ?_, ?_, ?_, ?_⟩
  · exact claim_C5_client_construction_failures_fatal.1 depsBadBuild envEmpty none true
      "no cluster config" rfl
  · exact claim_C5_client_construction_failures_fatal.2.1 depsBadK8s envEmpty none true
      0 "k8s down" rfl rfl
  · exact claim_C5_client_construction_failures_fatal.2.2.1 depsBadAthenz envEmpty none
      true 0 1 "athenz down" rfl rfl rfl
  · exact claim_C5_client_construction_failures_fatal.2.2.2.1 depsBadK8s envEmpty
      flagsDefault 5 0 "Failed to create k8s client from config. Error: k8s down" rfl
  · exact claim_C5_client_construction_failures_fatal.2.2.2.2 "zms boom" _

/-- C6: once startup succeeds, the stop channel handed to the cert
reloader and the one handed to `controller.Run` are the same channel
`main` allocated; `main` stays blocked while only non-registered signals
arrive, and at the first SIGTERM/SIGINT it returns, closing exactly that
channel; SIGTERM and SIGINT are the registered signals. -/
theorem claim_C6_signal_driven_shutdown
    (deps : Deps) (env : Env) (fl : Flags) (stopCh raddr : Nat) (setup : Setup)
    (h : runMain deps env fl stopCh raddr = .running setup) :
    setup.certReloader.stopCh = stopCh ∧
    setup.controllerStopCh = stopCh ∧
    (∀ signals, (∀ s ∈ signals, terminationSignal s = false) →
       mainLifecycle stopCh signals = none) ∧
    (∀ pre s post, terminationSignal s = true →
       (∀ x ∈ pre, terminationSignal x = false) →
       mainLifecycle stopCh (pre ++ s :: post) = some (s, stopCh)) ∧
    terminationSignal .SIGTERM = true ∧ terminationSignal .SIGINT = true := by
  obtain ⟨h1, -, h3, -⟩ := runMain_running_inv deps env fl stopCh raddr setup h
  refine ⟨h1, h3, ?_, ?_, rfl, rfl⟩
  · intro signals hs
    simp [mainLifecycle, awaitSignal_eq_none signals hs]
  · intro pre s post hs hpre
    simp [mainLifecycle, awaitSignal_first pre s post hs hpre]

/-- Witness for C6 at a fully successful startup: blocked on a
non-registered signal, shut down at SIGTERM, closing channel 5. -/
theorem claim_C6_signal_driven_shutdown_witness :
    runMain depsOK envEmpty flagsDefault 5 0 = .running setupOK ∧
    setupOK.certReloader.stopCh = 5 ∧
    setupOK.controllerStopCh = 5 ∧
    mainLifecycle 5 [Signal.other 1] = none ∧
    mainLifecycle 5 [Signal.other 1, Signal.SIGTERM, Signal.other 2]
      = some (Signal.SIGTERM, 5) := by
  have hrun : runMain depsOK envEmpty flagsDefault 5 0 = .running setupOK := rfl
  have h := claim_C6_signal_driven_shutdown depsOK envEmpty flagsDefault 5 0 setupOK hrun
  refine ⟨hrun, h.1, h.2.1, ?_, ?_⟩
  · exact h.2.2.1 [Signal.other 1] (by intro s hs; simp at hs; subst hs; rfl)
  · exact h.2.2.2.1 [Signal.other 1] Signal.SIGTERM [Signal.other 2] rfl
      (by intro x hx; simp at hx; subst hx; rfl)

/-- C7: when `inClusterConfig` is set the kubeconfig path is the empty
string whatever the user supplied; otherwise, absent a user-supplied
flag, it defaults to `homeDir() + "/.kube/config"`, where `homeDir()` is
`$HOME` when non-empty, `$USERPROFILE` otherwise, and the default is
empty when `homeDir()` is empty. -/
theorem claim_C7_kubeconfig_resolution :
    (∀ (env : Env) (user : Option String), effectiveKubeconfig env user true = "") ∧
    (∀ env : Env, homeDir env ≠ "" →
       effectiveKubeconfig env none false = homeDir env ++ "/.kube/config") ∧
    (∀ env : Env, env.home ≠ "" → homeDir env = env.home) ∧
    (∀ env : Env, env.home = "" → homeDir env = env.userprofile) ∧
    (∀ env : Env, homeDir env = "" → effectiveKubeconfig env none false = "") := by
  refine ⟨fun env user => rfl, ?_, ?_, ?_, ?_⟩
  · intro env h
    simp [effectiveKubeconfig, kubeconfigFlagDefault, h]
  · intro env h
    simp [homeDir, h]
  · intro env h
    simp [homeDir, h]
  · intro env h
    simp [effectiveKubeconfig, kubeconfigFlagDefault, h]

/-- Witness for C7 at concrete environments: in-cluster override, `HOME`
set, `HOME` unset with `USERPROFILE` set, and neither set. -/
theorem claim_C7_kubeconfig_resolution_witness :
    effectiveKubeconfig { home := "/home/u", userprofile := "" } (some "/tmp/kc") true
      = "" ∧
    effectiveKubeconfig { home := "/home/u", userprofile := "" } none false
      = "/home/u/.kube/config" ∧
    homeDir { home := "", userprofile := "C:/Users/u" } = "C:/Users/u" ∧
    effectiveKubeconfig { home := "", userprofile := "C:/Users/u" } none false
      = "C:/Users/u/.kube/config" ∧
    effectiveKubeconfig envEmpty none false = "" := by
  have h := claim_C7_kubeconfig_resolution
  refine ⟨h.1 _ _, ?_, ?_, ?_, ?_⟩
  · exact h.2.1 { home := "/home/u", userprofile := "" } (by decide)
  · exact h.2.2.2.1 { home := "", userprofile := "C:/Users/u" } rfl
  · exact h.2.1 { home := "", userprofile := "C:/Users/u" } (by decide)
  · exact h.2.2.2.2 envEmpty rfl

/-- C8 counterexample: the list passed to `NewUtil` is not always exactly
the comma-split components of the flag value — for the (default) empty
flag value, the comma-split is `[""]` while the processed list is `[]`. -/
theorem claim_C8_counterexample : processNamespaces [] ≠ splitComma [] := by
  decide

/-- Flags with a system-namespaces value containing an empty component. -/
def flagsNS : Flags := { systemNamespaces := "kube-system,,kube-public".toList }

/-- The setup produced by a successful startup with `flagsNS`. -/
def setupNS : Setup :=
  { setupOK with systemNamespaceList := processNamespaces flagsNS.systemNamespaces }

/-- C8 (amended): the excluded-namespace list passed to `NewUtil` is
exactly the comma-split components of the system-namespaces flag value
with empty components removed, in order. -/
theorem claim_C8_namespaces_split_filtered
    (deps : Deps) (env : Env) (fl : Flags) (stopCh raddr : Nat) (setup : Setup)
    (h : runMain deps env fl stopCh raddr = .running setup) :
    setup.systemNamespaceList
      = (splitComma fl.systemNamespaces).filter (fun t => !t.isEmpty) ∧
    (∀ s, processNamespaces s = (splitComma s).filter (fun t => !t.isEmpty)) := by
  refine ⟨?_, processNamespaces_eq_filter⟩
  rw [(runMain_running_inv deps env fl stopCh raddr setup h).2.2.2,
    processNamespaces_eq_filter]

/-- Witness for C8 (amended) at a concrete flag value with consecutive
commas. -/
theorem claim_C8_namespaces_split_filtered_witness :
    runMain depsOK envEmpty flagsNS 5 0 = .running setupNS ∧
    setupNS.systemNamespaceList
      = (splitComma flagsNS.systemNamespaces).filter (fun t => !t.isEmpty) ∧
    processNamespaces ("a,,b".toList)
      = (splitComma ("a,,b".toList)).filter (fun t => !t.isEmpty) := by
  have hrun : runMain depsOK envEmpty flagsNS 5 0 = .running setupNS := rfl
  have h := claim_C8_namespaces_split_filtered depsOK envEmpty flagsNS 5 0 setupNS hrun
  exact ⟨hrun, h.1, h.2 ("a,,b".toList)⟩

/-- Whether a `main` outcome is the zms-client startup panic. -/
def isZmsAbort : MainOutcome → Bool
  | .aborted (.zmsClient _) => true
  | _ => false

theorem getClients_fatal_inv (deps : Deps) (env : Env) (u : Option String)
    (ic : Bool) (r : AbortReason) (h : getClients deps env u ic = .fatal r) :
    ∃ e, r = .clusterConfig e := by
  cases hb : deps.buildConfigFromFlags "" (effectiveKubeconfig env u ic) with
  | error e =>
    simp only [getClients, hb, GoResult.fatal.injEq] at h
    exact ⟨e, h.symm⟩
  | ok cfg =>
    cases hn : deps.newForConfig cfg with
    | error e => simp [getClients, hb, hn] at h
    | ok kc =>
      cases ha : deps.athenzNewForConfig cfg with
      | error e => simp [getClients, hb, hn, ha] at h
      | ok vc => simp [getClients, hb, hn, ha] at h

/-- C9: `createZMSClient` returns a nil error for every input, and
consequently `main` never aborts with the zms-client panic reason — that
fatal-startup branch is unreachable. -/
theorem claim_C9_zms_error_branch_unreachable :
    (∀ (r : Nat) (url : String) (ka : Bool),
       ∃ c, createZMSClient r url ka = .ok c) ∧
    (∀ (deps : Deps) (env : Env) (fl : Flags) (stopCh raddr : Nat),
       isZmsAbort (runMain deps env fl stopCh raddr) = false) := by
  constructor
  · intro r url ka
    exact ⟨_, rfl⟩
  · intro deps env fl stopCh raddr
    cases hg : getClients deps env fl.kubeconfig fl.inClusterConfig with
    | fatal r =>
      obtain ⟨e, he⟩ := getClients_fatal_inv deps env fl.kubeconfig fl.inClusterConfig r hg
      subst he
      simp [runMain, hg, isZmsAbort]
    | err e => simp [runMain, hg, isZmsAbort]
    | ok kv =>
      obtain ⟨kc, vc⟩ := kv
      cases hr : NewCertReloader (deps.parseKeyCert fl.key fl.cert) stopCh with
      | error e => simp [runMain, hg, hr, isZmsAbort]
      | ok rel =>
        cases hu : deps.parseDuration fl.updateCron with
        | error e =>
          simp [runMain, hg, hr, hu, zmsClientStep, createZMSClient, isZmsAbort]
        | ok d1 =>
          cases hre : deps.parseDuration fl.resyncCron with
          | error e =>
            simp [runMain, hg, hr, hu, hre, zmsClientStep, createZMSClient, isZmsAbort]
          | ok d2 =>
            cases hq : deps.parseDuration fl.queueDelayInterval with
            | error e =>
              simp [runMain, hg, hr, hu, hre, hq, zmsClientStep, createZMSClient,
                isZmsAbort]
            | ok d3 =>
              simp [runMain, hg, hr, hu, hre, hq, zmsClientStep, createZMSClient,
                isZmsAbort]

/-- C10: the processed system-namespaces list never contains an empty
name, and the (default) empty flag value yields the empty exclusion
list. -/
theorem claim_C10_no_empty_namespace_component :
    (∀ s, (processNamespaces s).all (fun t => !t.isEmpty) = true) ∧
    processNamespaces [] = [] := by
  constructor
  · intro s
    rw [processNamespaces_eq_filter, List.all_eq_true]
    intro t ht
    exact (List.mem_filter.mp ht).2
  · rfl

end AthenzSyncer
